import Mathlib

/-!
Shallow embedding of the QuickBooks incremental sync engine
(repository `quickbook-integration`).

Modelling conventions, fixed once for the whole file:

* ISO-8601 timestamp strings (cursors, `MetaData.LastUpdatedTime`) are
  represented by their epoch-millisecond value as a `Nat`.  The source
  round-trips such strings through `new Date(t).getTime()` /
  `toISOString()`, which is exactly the map to and from this epoch value;
  the lexicographic order on canonical ISO strings agrees with the numeric
  order on the epoch values.  A present timestamp string is non-empty and
  hence JS-truthy, so `cursor || null` is the identity on this
  representation (the coercion matters only for numbers, where `0 || null`
  is `null`, and for strings, where `"" || null` is `null`; those cases are
  modelled explicitly by `natOrNull` and `strOrNull` below).
* SQLite tables keyed by a unique column are total functions from the key
  to `Option row`; `none` is "no row".  A primary key can hold at most one
  row per key, so "no duplicate rows" is intrinsic to the representation.
* Each database operation takes the value of `Date.now()` as an explicit
  `now : Nat` argument.  Within one engine cycle the source calls
  `Date.now()` a handful of times; the cycle model collapses these to a
  start-of-cycle time `t0` (used by `markInProgress` / `startTime`) and a
  completion time `t1` (used by the upsert, `markSuccess` / `markFailure`,
  the history insert and `endTime`), which is immaterial to the claims.
* Fallible steps of a sync cycle (the sync-state read, the remote query,
  the entity batch upsert) are driven by a `CycleEnv` describing the
  behaviour of the environment during that cycle; a thrown JS exception is
  an `Except.error` carrying `error.message`.
-/

namespace QBSync

/-- `SyncStatus` from `lib/src/types` (`pending`, `in_progress`, `success`,
`failure`). -/
inductive SyncStatus where
  | pending
  | inProgress
  | success
  | failure
deriving DecidableEq, Repr

/-- `ObjectType` (`'customer' | 'invoice'`). -/
inductive ObjectType where
  | customer
  | invoice
deriving DecidableEq, Repr

/-- JS `x || null` for an optional number: `0` is falsy and becomes
`null`. -/
def natOrNull : Option Nat → Option Nat
  | some n => if n = 0 then none else some n
  | none => none

/-- JS `x || null` for an optional string: the empty string is falsy and
becomes `null`. -/
def strOrNull : Option String → Option String
  | some s => if s = "" then none else some s
  | none => none

/-- One row of the `sync_state` table (schema in
`lib/src/database/schema.ts`): status, cursor, attempt/success timestamps,
error message, plus the bookkeeping `created_at` / `updated_at` columns.
The `id` AUTOINCREMENT column plays no role (the table is keyed by the
UNIQUE `(realm_id, object_type)` pair) and is omitted. -/
structure SyncStateRow where
  status : SyncStatus
  cursor : Option Nat
  lastSyncAttempt : Option Nat
  lastSyncSuccess : Option Nat
  errorMessage : Option String
  createdAt : Nat
  updatedAt : Nat
deriving DecidableEq, Repr

/-- The `sync_state` table is UNIQUE on `(realm_id, object_type)`. -/
abbrev SyncKey := String × ObjectType

abbrev SyncStateTable := SyncKey → Option SyncStateRow

def emptySyncState : SyncStateTable := fun _ => none

/-- The projection `SyncStateRepository.get` returns: either the stored
row's fields, or the default `status: pending, cursor: undefined`
object when no row exists (absence is not an error). -/
structure SyncStateView where
  status : SyncStatus
  cursor : Option Nat
  lastSyncAttempt : Option Nat
  lastSyncSuccess : Option Nat
  errorMessage : Option String
deriving DecidableEq, Repr

/-- `SyncStateRepository.get` (sync-state repository, part_004 lines
22-54). -/
def SyncStateRepository.get (s : SyncStateTable) (k : SyncKey) : SyncStateView :=
  match s k with
  | some row =>
      { status := row.status
        cursor := row.cursor
        lastSyncAttempt := row.lastSyncAttempt
        lastSyncSuccess := row.lastSyncSuccess
        errorMessage := row.errorMessage }
  | none =>
      { status := SyncStatus.pending
        cursor := none
        lastSyncAttempt := none
        lastSyncSuccess := none
        errorMessage := none }

/-- `SyncStateRepository.markInProgress`: upsert keyed on
`(realm_id, object_type)`.  INSERT sets `last_sync_attempt = now`,
`status = 'in_progress'` (cursor, success time and error message are
absent, hence NULL); ON CONFLICT updates only `last_sync_attempt`,
`status` and `updated_at`. -/
def SyncStateRepository.markInProgress (now : Nat) (s : SyncStateTable)
    (k : SyncKey) : SyncStateTable :=
  fun k2 =>
    if k2 = k then
      match s k with
      | none =>
          some { status := SyncStatus.inProgress
                 cursor := none
                 lastSyncAttempt := some now
                 lastSyncSuccess := none
                 errorMessage := none
                 createdAt := now
                 updatedAt := now }
      | some row =>
          some { row with
                 status := SyncStatus.inProgress
                 lastSyncAttempt := some now
                 updatedAt := now }
    else s k2

/-- `SyncStateRepository.markSuccess`: INSERT sets
`last_sync_success = now`, `status = 'success'`, `cursor = cursor || null`,
`error_message = NULL` (and `last_sync_attempt` absent, hence NULL);
ON CONFLICT updates `last_sync_success`, `status`, `cursor`,
`error_message = NULL` and `updated_at`.  The `cursor || null` coercion is
the identity here because a cursor string, when present, is a non-empty
ISO timestamp. -/
def SyncStateRepository.markSuccess (now : Nat) (s : SyncStateTable)
    (k : SyncKey) (cursor : Option Nat) : SyncStateTable :=
  fun k2 =>
    if k2 = k then
      match s k with
      | none =>
          some { status := SyncStatus.success
                 cursor := cursor
                 lastSyncAttempt := none
                 lastSyncSuccess := some now
                 errorMessage := none
                 createdAt := now
                 updatedAt := now }
      | some row =>
          some { row with
                 status := SyncStatus.success
                 cursor := cursor
                 lastSyncSuccess := some now
                 errorMessage := none
                 updatedAt := now }
    else s k2

/-- `SyncStateRepository.markFailure`: INSERT sets `status = 'failure'`,
`error_message = msg` (cursor, attempt and success times absent, hence
NULL); ON CONFLICT updates only `status`, `error_message` and
`updated_at` — cursor, `last_sync_attempt` and `last_sync_success` are
left untouched. -/
def SyncStateRepository.markFailure (now : Nat) (s : SyncStateTable)
    (k : SyncKey) (msg : String) : SyncStateTable :=
  fun k2 =>
    if k2 = k then
      match s k with
      | none =>
          some { status := SyncStatus.failure
                 cursor := none
                 lastSyncAttempt := none
                 lastSyncSuccess := none
                 errorMessage := some msg
                 createdAt := now
                 updatedAt := now }
      | some row =>
          some { row with
                 status := SyncStatus.failure
                 errorMessage := some msg
                 updatedAt := now }
    else s k2

/-- `SyncStateRepository.reset`: INSERT or ON CONFLICT sets
`status = 'pending'`, `cursor = NULL`, `error_message = NULL`. -/
def SyncStateRepository.reset (now : Nat) (s : SyncStateTable)
    (k : SyncKey) : SyncStateTable :=
  fun k2 =>
    if k2 = k then
      match s k with
      | none =>
          some { status := SyncStatus.pending
                 cursor := none
                 lastSyncAttempt := none
                 lastSyncSuccess := none
                 errorMessage := none
                 createdAt := now
                 updatedAt := now }
      | some row =>
          some { row with
                 status := SyncStatus.pending
                 cursor := none
                 errorMessage := none
                 updatedAt := now }
    else s k2

/-- The cursor currently stored for key `k` — the stored row's cursor, or
`none` when no row exists (matching the default view of
`SyncStateRepository.get`). -/
def cursorAt (s : SyncStateTable) (k : SyncKey) : Option Nat :=
  match s k with
  | some row => row.cursor
  | none => none

/-! ## Entity repositories (customers, invoices) -/

/-- The object fed to `CustomerRepository.batchUpsert` by the engine
(`{ id, realmId, rawData }`). -/
structure CustomerInput where
  id : String
  realmId : String
  rawData : String
deriving DecidableEq, Repr

/-- One row of the `customers` table (PRIMARY KEY `id`). -/
structure CustomerRow where
  realmId : String
  rawData : String
  createdAt : Nat
  updatedAt : Nat
deriving DecidableEq, Repr

abbrev CustomerTable := String → Option CustomerRow

/-- One upsert statement of `CustomerRepository`: INSERT, ON CONFLICT(id)
update `realm_id`, `raw_data`, `updated_at` (keeping `created_at`). -/
def customerUpsertOne (now : Nat) (t : CustomerTable) (c : CustomerInput) :
    CustomerTable :=
  fun i =>
    if i = c.id then
      match t c.id with
      | none =>
          some { realmId := c.realmId
                 rawData := c.rawData
                 createdAt := now
                 updatedAt := now }
      | some old =>
          some { old with
                 realmId := c.realmId
                 rawData := c.rawData
                 updatedAt := now }
    else t i

/-- `CustomerRepository.batchUpsert`: early return on the empty batch,
otherwise one transaction running the upsert statement once per element,
in order. -/
def customerBatchUpsert (now : Nat) (t : CustomerTable)
    (cs : List CustomerInput) : CustomerTable :=
  if cs = [] then t else cs.foldl (customerUpsertOne now) t

/-- The object fed to `InvoiceRepository.batchUpsert` by the engine
(`{ id, realmId, customerId, rawData }`; `customerId` comes from
`extractCustomerId`, i.e. `invoice.CustomerRef?.value`, and may be
absent). -/
structure InvoiceInput where
  id : String
  realmId : String
  customerId : Option String
  rawData : String
deriving DecidableEq, Repr

/-- One row of the `invoices` table (PRIMARY KEY `id`). -/
structure InvoiceRow where
  realmId : String
  customerId : Option String
  rawData : String
  createdAt : Nat
  updatedAt : Nat
deriving DecidableEq, Repr

abbrev InvoiceTable := String → Option InvoiceRow

/-- One upsert statement of `InvoiceRepository`: the bound `customer_id`
parameter is `invoice.customerId || null`; INSERT, ON CONFLICT(id) update
`realm_id`, `customer_id`, `raw_data`, `updated_at` (keeping
`created_at`). -/
def invoiceUpsertOne (now : Nat) (t : InvoiceTable) (v : InvoiceInput) :
    InvoiceTable :=
  fun i =>
    if i = v.id then
      match t v.id with
      | none =>
          some { realmId := v.realmId
                 customerId := strOrNull v.customerId
                 rawData := v.rawData
                 createdAt := now
                 updatedAt := now }
      | some old =>
          some { old with
                 realmId := v.realmId
                 customerId := strOrNull v.customerId
                 rawData := v.rawData
                 updatedAt := now }
    else t i

/-- `InvoiceRepository.batchUpsert`: early return on the empty batch,
otherwise one transaction running the upsert statement once per element,
in order. -/
def invoiceBatchUpsert (now : Nat) (t : InvoiceTable)
    (vs : List InvoiceInput) : InvoiceTable :=
  if vs = [] then t else vs.foldl (invoiceUpsertOne now) t

/-- The entity fields of a customer row, without the `created_at` /
`updated_at` bookkeeping timestamps. -/
structure CustomerData where
  realmId : String
  rawData : String
deriving DecidableEq, Repr

def customerData (r : CustomerRow) : CustomerData :=
  { realmId := r.realmId, rawData := r.rawData }

/-- The stored customer table viewed through its entity fields. -/
def customerDataTable (t : CustomerTable) : String → Option CustomerData :=
  fun i => (t i).map customerData

/-- The entity fields of an invoice row, without the `created_at` /
`updated_at` bookkeeping timestamps. -/
structure InvoiceData where
  realmId : String
  customerId : Option String
  rawData : String
deriving DecidableEq, Repr

def invoiceData (r : InvoiceRow) : InvoiceData :=
  { realmId := r.realmId, customerId := r.customerId, rawData := r.rawData }

/-- The stored invoice table viewed through its entity fields. -/
def invoiceDataTable (t : InvoiceTable) : String → Option InvoiceData :=
  fun i => (t i).map invoiceData

/-! ## Sync history log -/

/-- History-row status; `partialResult` stands for the source's string
literal for a partially successful cycle. -/
inductive SyncHistoryStatus where
  | success
  | failure
  | partialResult
deriving DecidableEq, Repr

/-- One row of the append-only `sync_history` table. -/
structure SyncHistoryRow where
  realmId : String
  objectType : ObjectType
  status : SyncHistoryStatus
  recordsSynced : Nat
  recordsFailed : Nat
  durationMs : Option Nat
  cursorBefore : Option Nat
  cursorAfter : Option Nat
  errorMessage : Option String
  startedAt : Nat
  completedAt : Option Nat
  createdAt : Nat
deriving DecidableEq, Repr

/-- The record argument of `SyncHistoryRepository.create`
(`Omit<SyncHistoryRecord, 'id' | 'createdAt'>`). -/
structure SyncHistoryInput where
  realmId : String
  objectType : ObjectType
  status : SyncHistoryStatus
  recordsSynced : Nat
  recordsFailed : Nat
  durationMs : Option Nat
  cursorBefore : Option Nat
  cursorAfter : Option Nat
  errorMessage : Option String
  startedAt : Nat
  completedAt : Option Nat
deriving DecidableEq, Repr

/-- `SyncHistoryRepository.create`: INSERT one row.  The bound parameters
apply `x || null` to `duration_ms`, `cursor_before`, `cursor_after`,
`error_message` and `completed_at`; for the two cursors the coercion is
the identity (non-empty ISO strings), for the numeric `duration_ms` /
`completed_at` a zero value becomes NULL, and an empty error string
becomes NULL. -/
def syncHistoryCreate (now : Nat) (log : List SyncHistoryRow)
    (r : SyncHistoryInput) : List SyncHistoryRow :=
  log ++ [{ realmId := r.realmId
            objectType := r.objectType
            status := r.status
            recordsSynced := r.recordsSynced
            recordsFailed := r.recordsFailed
            durationMs := natOrNull r.durationMs
            cursorBefore := r.cursorBefore
            cursorAfter := r.cursorAfter
            errorMessage := strOrNull r.errorMessage
            startedAt := r.startedAt
            completedAt := natOrNull r.completedAt
            createdAt := now }]

/-! ## The object sync engines -/

/-- A record of the remote `QueryResponse` list as the engines read it:
`Id`, the optional `MetaData?.LastUpdatedTime` (epoch value of the ISO
string; `none` when the field or `MetaData` is absent), the optional
`CustomerRef?.value`, and the verbatim payload (`JSON.stringify` of the
record). -/
structure QBRecord where
  recId : String
  lastUpdatedTime : Option Nat
  customerRef : Option String
  payload : String
deriving DecidableEq, Repr

/-- `getMaxTimestamp` (identical private helper in both engines): `none`
for the empty batch; map each record to `MetaData?.LastUpdatedTime`, drop
the absent ones, and take `Math.max` of the parsed epoch values —
`none` when no record carries the field. -/
def getMaxTimestamp (records : List QBRecord) : Option Nat :=
  if records = [] then none
  else
    match records.filterMap (fun r => r.lastUpdatedTime) with
    | [] => none
    | t :: ts => some (ts.foldl Nat.max t)

/-- The four durable tables an engine cycle touches. -/
structure DBState where
  syncState : SyncStateTable
  customers : CustomerTable
  invoices : InvoiceTable
  history : List SyncHistoryRow

/-- The behaviour of the environment during one cycle: an exception
thrown by the sync-state read of step 2 (`stateReadErr`), the outcome of
the remote query of step 4 (`fetched`, already extracted to the record
list: `result.QueryResponse?.<Type> || []`), an exception thrown by the
entity batch upsert of step 6 (`upsertErr`; the upsert runs in one
transaction, so a throw leaves the entity table unchanged), and the
wall-clock values `t0` (cycle start) and `t1` (cycle completion). -/
structure CycleEnv where
  stateReadErr : Option String
  fetched : Except String (List QBRecord)
  upsertErr : Option String
  t0 : Nat
  t1 : Nat

/-- The value `sync()` resolves with. -/
structure SyncResult where
  synced : Nat
  errors : Nat
deriving DecidableEq, Repr

def invoiceKey (realm : String) : SyncKey := (realm, ObjectType.invoice)

def customerKey (realm : String) : SyncKey := (realm, ObjectType.customer)

open SyncStateRepository in
/-- The `try` block of `InvoiceSyncService.sync`: mark in progress, read
the cursor, query, then either the empty-result branch (markSuccess with
the unchanged cursor) or upsert + markSuccess with
`getMaxTimestamp`.  The invoice engine writes no sync-history record.
An `Except.error` is a JS exception escaping the block. -/
def invoiceSyncBody (env : CycleEnv) (realm : String) (db : DBState) :
    Except String (SyncResult × DBState) :=
  let k := invoiceKey realm
  let s1 := markInProgress env.t0 db.syncState k
  let db1 : DBState := { db with syncState := s1 }
  match env.stateReadErr with
  | some m => Except.error m
  | none =>
    let cursor := (SyncStateRepository.get s1 k).cursor
    match env.fetched with
    | Except.error m => Except.error m
    | Except.ok invoices =>
      if invoices = [] then
        Except.ok (⟨0, 0⟩,
          { db1 with syncState := markSuccess env.t1 s1 k cursor })
      else
        match env.upsertErr with
        | some m => Except.error m
        | none =>
          let toUpsert := invoices.map (fun inv =>
            ({ id := inv.recId
               realmId := realm
               customerId := inv.customerRef
               rawData := inv.payload } : InvoiceInput))
          let invTable := invoiceBatchUpsert env.t1 db1.invoices toUpsert
          let newCursor := getMaxTimestamp invoices
          Except.ok (⟨invoices.length, 0⟩,
            { db1 with
              invoices := invTable
              syncState := markSuccess env.t1 s1 k newCursor })

open SyncStateRepository in
/-- `InvoiceSyncService.sync` (invoice-sync.ts lines 17-80): the `try`
block with its `catch` handler, which marks the failure with the
exception's message and resolves with `synced: 0, errors: 1`. -/
def invoiceSync (env : CycleEnv) (realm : String) (db : DBState) :
    Except String (SyncResult × DBState) :=
  match invoiceSyncBody env realm db with
  | Except.ok x => Except.ok x
  | Except.error m =>
      let k := invoiceKey realm
      let s1 := markInProgress env.t0 db.syncState k
      Except.ok (⟨0, 1⟩,
        { db with syncState := markFailure env.t1 s1 k m })

open SyncStateRepository in
/-- The `try` block of `CustomerSyncService.sync` (part_005): like the
invoice engine but writing one sync-history record in both the
empty-result and the upsert branch. -/
def customerSyncBody (env : CycleEnv) (realm : String) (db : DBState) :
    Except String (SyncResult × DBState) :=
  let k := customerKey realm
  let s1 := markInProgress env.t0 db.syncState k
  let db1 : DBState := { db with syncState := s1 }
  match env.stateReadErr with
  | some m => Except.error m
  | none =>
    let cursorBefore := (SyncStateRepository.get s1 k).cursor
    match env.fetched with
    | Except.error m => Except.error m
    | Except.ok customers =>
      if customers = [] then
        Except.ok (⟨0, 0⟩,
          { db1 with
            syncState := markSuccess env.t1 s1 k cursorBefore
            history := syncHistoryCreate env.t1 db.history
              { realmId := realm
                objectType := ObjectType.customer
                status := SyncHistoryStatus.success
                recordsSynced := 0
                recordsFailed := 0
                durationMs := some (env.t1 - env.t0)
                cursorBefore := cursorBefore
                cursorAfter := cursorBefore
                errorMessage := none
                startedAt := env.t0
                completedAt := some env.t1 } })
      else
        match env.upsertErr with
        | some m => Except.error m
        | none =>
          let toUpsert := customers.map (fun c =>
            ({ id := c.recId
               realmId := realm
               rawData := c.payload } : CustomerInput))
          let custTable := customerBatchUpsert env.t1 db1.customers toUpsert
          let newCursor := getMaxTimestamp customers
          Except.ok (⟨customers.length, 0⟩,
            { db1 with
              customers := custTable
              syncState := markSuccess env.t1 s1 k newCursor
              history := syncHistoryCreate env.t1 db.history
                { realmId := realm
                  objectType := ObjectType.customer
                  status := SyncHistoryStatus.success
                  recordsSynced := customers.length
                  recordsFailed := 0
                  durationMs := some (env.t1 - env.t0)
                  cursorBefore := cursorBefore
                  cursorAfter := newCursor
                  errorMessage := none
                  startedAt := env.t0
                  completedAt := some env.t1 } })

open SyncStateRepository in
/-- `CustomerSyncService.sync` (part_005 lines 17-142): the `try` block
with its `catch` handler.  The handler marks the failure and writes one
history record with `recordsSynced = 0`, `recordsFailed = 1` and the
pre-cycle cursor in both cursor slots; `cursorBefore` is still undefined
when the exception preceded the sync-state read. -/
def customerSync (env : CycleEnv) (realm : String) (db : DBState) :
    Except String (SyncResult × DBState) :=
  match customerSyncBody env realm db with
  | Except.ok x => Except.ok x
  | Except.error m =>
      let k := customerKey realm
      let s1 := markInProgress env.t0 db.syncState k
      let cursorBefore :=
        match env.stateReadErr with
        | some _ => none
        | none => (SyncStateRepository.get s1 k).cursor
      Except.ok (⟨0, 1⟩,
        { db with
          syncState := markFailure env.t1 s1 k m
          history := syncHistoryCreate env.t1 db.history
            { realmId := realm
              objectType := ObjectType.customer
              status := SyncHistoryStatus.failure
              recordsSynced := 0
              recordsFailed := 1
              durationMs := some (env.t1 - env.t0)
              cursorBefore := cursorBefore
              cursorAfter := cursorBefore
              errorMessage := some m
              startedAt := env.t0
              completedAt := some env.t1 } })

/-- The database state after one invoice cycle (`sync()` never rejects —
proved below — so the `Except.error` case of this definition is
unreachable and returns `db` only to keep the function total). -/
def invoiceStep (env : CycleEnv) (realm : String) (db : DBState) : DBState :=
  match invoiceSync env realm db with
  | Except.ok (_, db2) => db2
  | Except.error _ => db

/-- Iterated invoice cycles, one environment per cycle. -/
def runInvoice (realm : String) : List CycleEnv → DBState → DBState
  | [], db => db
  | e :: es, db => runInvoice realm es (invoiceStep e realm db)

/-- The database state after one customer cycle (like `invoiceStep`, the
`Except.error` case is unreachable because `sync()` never rejects). -/
def customerStep (env : CycleEnv) (realm : String) (db : DBState) :
    DBState :=
  match customerSync env realm db with
  | Except.ok (_, db2) => db2
  | Except.error _ => db

/-! ## Token store and the authenticated client's token lifecycle -/

/-- One row of the `tokens` table (`realm_id` UNIQUE). -/
structure TokenData where
  accessToken : String
  refreshToken : String
  expiresAt : Nat
  createdAt : Nat
  updatedAt : Nat
deriving DecidableEq, Repr

abbrev TokenTable := String → Option TokenData

/-- The `Partial<TokenData>` argument of `TokenRepository.update`. -/
structure TokenPatch where
  accessToken : Option String
  refreshToken : Option String
  expiresAt : Option Nat
deriving DecidableEq, Repr

/-- `TokenRepository.update` (connection.ts lines 125-158): a SQL UPDATE
of only the fields present in the patch, plus `updated_at = now`, keyed
on `realm_id`; when no row matches, the UPDATE changes nothing. -/
def tokenUpdate (now : Nat) (t : TokenTable) (realm : String)
    (p : TokenPatch) : TokenTable :=
  fun r =>
    if r = realm then
      match t realm with
      | none => none
      | some td =>
          some { accessToken := p.accessToken.getD td.accessToken
                 refreshToken := p.refreshToken.getD td.refreshToken
                 expiresAt := p.expiresAt.getD td.expiresAt
                 createdAt := td.createdAt
                 updatedAt := now }
    else t r

/-- The response of `refreshAccessToken` (oauth.ts): the rotated
access/refresh pair and the validity window in seconds. -/
structure RefreshResponse where
  access_token : String
  refresh_token : String
  expires_in : Nat
deriving DecidableEq, Repr

/-- A token refresher: `refresh_token → new pair`, or a thrown error. -/
abbrev Refresher := String → Except String RefreshResponse

/-- `QuickBooks.getValidToken` (client.ts lines 33-70): no stored token →
authorization-required error without calling the refresher; stored token
with `now >= expiresAt - 5 minutes` → refresh, persist the rotated pair
via `TokenRepository.update`, and return the new access token (a refresh
failure is re-thrown with a re-authorize message); otherwise return the
stored access token with no refresh.  Returns the token used together
with the token table after the call.  The two `Date.now()` readings of
the source (expiry check and new-expiry computation) are collapsed into
the single `now`. -/
def getValidToken (now : Nat) (refresher : Refresher) (store : TokenTable)
    (realm : String) : Except String (String × TokenTable) :=
  match store realm with
  | none =>
      Except.error ("No tokens found for realm " ++ realm ++
        ". Please authorize the app first.")
  | some td =>
      let bufferMs : Int := 5 * 60 * 1000
      if (now : Int) ≥ (td.expiresAt : Int) - bufferMs then
        match refresher td.refreshToken with
        | Except.ok refreshed =>
            let store2 := tokenUpdate now store realm
              { accessToken := some refreshed.access_token
                refreshToken := some refreshed.refresh_token
                expiresAt := some (now + refreshed.expires_in * 1000) }
            Except.ok (refreshed.access_token, store2)
        | Except.error m =>
            Except.error ("Token refresh failed. Please re-authorize the app. Error: " ++ m)
      else
        Except.ok (td.accessToken, store)

/-! ## Auxiliary notions used to state the claims -/

/-- Order on stored cursors: `none` (never synced) precedes everything; a
present cursor never goes back to `none` or to a smaller value. -/
def cursorLe : Option Nat → Option Nat → Prop
  | none, _ => True
  | some _, none => False
  | some a, some b => a ≤ b

/-- `cursorLtO c t`: the timestamp `t` is strictly beyond the cursor `c`
(every timestamp is beyond an absent cursor). -/
def cursorLtO : Option Nat → Nat → Prop
  | none, _ => True
  | some c, t => c < t

/-- One invoice cycle that completes with status success while every
record the query returned carries a `LastUpdatedTime` strictly greater
than the cursor `c` used in the query. -/
def FreshSuccessCycle (e : CycleEnv) (c : Option Nat) : Prop :=
  e.stateReadErr = none ∧
    ∃ recs, e.fetched = Except.ok recs ∧
      (recs = [] ∨ e.upsertErr = none) ∧
      ∀ r ∈ recs, ∃ t, r.lastUpdatedTime = some t ∧ cursorLtO c t

/-- A sequence of invoice cycles from `db` in which every cycle is a
`FreshSuccessCycle` with respect to the cursor stored when that cycle
starts. -/
def GoodInvoiceRun (realm : String) : List CycleEnv → DBState → Prop
  | [], _ => True
  | e :: es, db =>
      FreshSuccessCycle e (cursorAt db.syncState (invoiceKey realm)) ∧
        GoodInvoiceRun realm es (invoiceStep e realm db)

/-- One operation of the sync-state store, with the key it is applied to
and the `Date.now()` value it observes. -/
inductive StateOp where
  | mip (k : SyncKey) (now : Nat)
  | msucc (k : SyncKey) (now : Nat) (cursor : Option Nat)
  | mfail (k : SyncKey) (now : Nat) (msg : String)
  | rst (k : SyncKey) (now : Nat)

open SyncStateRepository in
def applyStateOp (s : SyncStateTable) : StateOp → SyncStateTable
  | StateOp.mip k now => markInProgress now s k
  | StateOp.msucc k now c => markSuccess now s k c
  | StateOp.mfail k now m => markFailure now s k m
  | StateOp.rst k now => reset now s k

/-- The sync-state table reached from the empty table by a sequence of
store operations. -/
def applyStateOps (ops : List StateOp) : SyncStateTable :=
  ops.foldl applyStateOp emptySyncState

/-- Error-message discipline of a sync-state table: a stored non-null
`errorMessage` only ever accompanies status `failure` or `in_progress`
(the latter because `markInProgress` does not clear a prior failure's
message). -/
def ErrMsgInv (s : SyncStateTable) : Prop :=
  ∀ k row, s k = some row → row.errorMessage ≠ none →
    row.status = SyncStatus.failure ∨ row.status = SyncStatus.inProgress

/-! ## Helper lemmas about the sync-state store -/

section StateLemmas

open SyncStateRepository

theorem markInProgress_apply_some {s : SyncStateTable} {k : SyncKey}
    {row : SyncStateRow} (now : Nat) (h : s k = some row) :
    markInProgress now s k k =
      some { row with
             status := SyncStatus.inProgress
             lastSyncAttempt := some now
             updatedAt := now } := by
  unfold markInProgress
  simp [h]

theorem cursorAt_markInProgress (now : Nat) (s : SyncStateTable)
    (k : SyncKey) :
    cursorAt (markInProgress now s k) k = cursorAt s k := by
  unfold cursorAt markInProgress
  cases h : s k <;> simp [h]

theorem get_cursor_eq_cursorAt (s : SyncStateTable) (k : SyncKey) :
    (SyncStateRepository.get s k).cursor = cursorAt s k := by
  unfold SyncStateRepository.get cursorAt
  cases h : s k <;> simp

theorem markSuccess_apply (now : Nat) (s : SyncStateTable) (k : SyncKey)
    (c : Option Nat) :
    ∃ row, markSuccess now s k c k = some row ∧
      row.status = SyncStatus.success ∧ row.cursor = c ∧
      row.errorMessage = none ∧ row.lastSyncSuccess = some now := by
  unfold markSuccess
  cases h : s k with
  | none =>
      exact ⟨{ status := SyncStatus.success, cursor := c, lastSyncAttempt := none,
               lastSyncSuccess := some now, errorMessage := none, createdAt := now,
               updatedAt := now }, by simp [h], rfl, rfl, rfl, rfl⟩
  | some row =>
      exact ⟨{ status := SyncStatus.success, cursor := c,
               lastSyncAttempt := row.lastSyncAttempt,
               lastSyncSuccess := some now, errorMessage := none,
               createdAt := row.createdAt, updatedAt := now },
             by simp [h], rfl, rfl, rfl, rfl⟩

theorem cursorAt_markSuccess (now : Nat) (s : SyncStateTable) (k : SyncKey)
    (c : Option Nat) :
    cursorAt (markSuccess now s k c) k = c := by
  unfold cursorAt markSuccess
  cases h : s k <;> simp [h]

theorem markFailure_apply_some {s : SyncStateTable} {k : SyncKey}
    {row : SyncStateRow} (now : Nat) (msg : String) (h : s k = some row) :
    markFailure now s k msg k =
      some { row with
             status := SyncStatus.failure
             errorMessage := some msg
             updatedAt := now } := by
  unfold markFailure
  simp [h]

theorem cursorAt_markFailure (now : Nat) (s : SyncStateTable) (k : SyncKey)
    (msg : String) :
    cursorAt (markFailure now s k msg) k = cursorAt s k := by
  unfold cursorAt markFailure
  cases h : s k <;> simp [h]

theorem cursorLe_refl (c : Option Nat) : cursorLe c c := by
  cases c <;> simp [cursorLe]

theorem cursorLe_trans {a b c : Option Nat} (h1 : cursorLe a b)
    (h2 : cursorLe b c) : cursorLe a c := by
  cases a with
  | none => trivial
  | some x =>
    cases b with
    | none => exact absurd h1 (by simp [cursorLe])
    | some y =>
      cases c with
      | none => exact absurd h2 (by simp [cursorLe])
      | some z => exact le_trans (α := ℕ) h1 h2

end StateLemmas

/-! ## Claim C10 -/

/-- C10: `markInProgress` on an existing sync-state row only moves the
status to `in_progress` and stamps `lastSyncAttempt` (plus the
bookkeeping `updatedAt` column); the row's cursor, `lastSyncSuccess` and
`errorMessage` keep exactly their previous values, so the watermark of a
crash-interrupted cycle survives and a prior failure's error message
stays visible while the status is `in_progress`. -/
theorem C10_markInProgress_frame (now : Nat) (s : SyncStateTable)
    (k : SyncKey) (row : SyncStateRow) (h : s k = some row) :
    SyncStateRepository.markInProgress now s k k =
      some { row with
             status := SyncStatus.inProgress
             lastSyncAttempt := some now
             updatedAt := now } ∧
    ∃ row2, SyncStateRepository.markInProgress now s k k = some row2 ∧
      row2.status = SyncStatus.inProgress ∧ row2.lastSyncAttempt = some now ∧
      row2.cursor = row.cursor ∧ row2.lastSyncSuccess = row.lastSyncSuccess ∧
      row2.errorMessage = row.errorMessage :=
  ⟨markInProgress_apply_some now h,
   _, markInProgress_apply_some now h, rfl, rfl, rfl, rfl, rfl⟩

/-- Witness for C10 at a concrete failed row: the error message and
cursor survive `markInProgress`. -/
theorem C10_markInProgress_frame_witness :
    ∃ row2,
      SyncStateRepository.markInProgress 7
        (fun _ => some { status := SyncStatus.failure, cursor := some 3,
                         lastSyncAttempt := some 1, lastSyncSuccess := some 2,
                         errorMessage := some "boom", createdAt := 0,
                         updatedAt := 5 })
        ("realm1", ObjectType.invoice) ("realm1", ObjectType.invoice) =
          some row2 ∧
      row2.status = SyncStatus.inProgress ∧ row2.cursor = some 3 ∧
      row2.lastSyncSuccess = some 2 ∧ row2.errorMessage = some "boom" := by
  obtain ⟨-, row2, h1, h2, -, h3, h4, h5⟩ :=
    C10_markInProgress_frame 7
      (fun _ => some { status := SyncStatus.failure, cursor := some 3,
                       lastSyncAttempt := some 1, lastSyncSuccess := some 2,
                       errorMessage := some "boom", createdAt := 0,
                       updatedAt := 5 })
      ("realm1", ObjectType.invoice)
      { status := SyncStatus.failure, cursor := some 3,
        lastSyncAttempt := some 1, lastSyncSuccess := some 2,
        errorMessage := some "boom", createdAt := 0, updatedAt := 5 }
      rfl
  exact ⟨row2, h1, h2, h3, h4, h5⟩

/-! ## Claim C2 -/

/-- An invoice cycle whose environment raises during the sync-state read,
the remote fetch, or the non-empty-batch storage upsert makes the `try`
block of `InvoiceSyncService.sync` throw. -/
theorem invoiceSyncBody_error_of (env : CycleEnv) (realm : String)
    (db : DBState)
    (h : env.stateReadErr ≠ none ∨ (∃ m, env.fetched = Except.error m) ∨
      (∃ recs, env.fetched = Except.ok recs ∧ recs ≠ [] ∧
        env.upsertErr ≠ none)) :
    ∃ m, invoiceSyncBody env realm db = Except.error m := by
  rcases h with h1 | ⟨m, h2⟩ | ⟨recs, h3, hne, h4⟩
  · rcases Option.ne_none_iff_exists'.mp h1 with ⟨m, hm⟩
    exact ⟨m, by simp [invoiceSyncBody, hm]⟩
  · cases hsr : env.stateReadErr with
    | some m2 => exact ⟨m2, by simp [invoiceSyncBody, hsr]⟩
    | none => exact ⟨m, by simp [invoiceSyncBody, hsr, h2]⟩
  · cases hsr : env.stateReadErr with
    | some m2 => exact ⟨m2, by simp [invoiceSyncBody, hsr]⟩
    | none =>
      rcases Option.ne_none_iff_exists'.mp h4 with ⟨m, hm⟩
      exact ⟨m, by simp [invoiceSyncBody, hsr, h3, hne, hm]⟩

/-- C2: `markFailure` on an existing row sets `status = failure` and
`errorMessage = message` while leaving the row's cursor and
`lastSyncSuccess` exactly as they were; consequently a `sync()` cycle
that raises during the state read, the fetch or the storage upsert leaves
the stored cursor exactly as it was before the cycle. -/
theorem C2_failure_preserves_cursor :
    (∀ (now : Nat) (s : SyncStateTable) (k : SyncKey) (row : SyncStateRow)
        (msg : String), s k = some row →
      ∃ row2, SyncStateRepository.markFailure now s k msg k = some row2 ∧
        row2.status = SyncStatus.failure ∧ row2.errorMessage = some msg ∧
        row2.cursor = row.cursor ∧
        row2.lastSyncSuccess = row.lastSyncSuccess) ∧
    (∀ (env : CycleEnv) (realm : String) (db : DBState) (res : SyncResult)
        (db2 : DBState),
      invoiceSync env realm db = Except.ok (res, db2) →
      (env.stateReadErr ≠ none ∨ (∃ m, env.fetched = Except.error m) ∨
        (∃ recs, env.fetched = Except.ok recs ∧ recs ≠ [] ∧
          env.upsertErr ≠ none)) →
      cursorAt db2.syncState (invoiceKey realm) =
        cursorAt db.syncState (invoiceKey realm)) := by
  constructor
  · intro now s k row msg h
    exact ⟨_, markFailure_apply_some now msg h, rfl, rfl, rfl, rfl⟩
  · intro env realm db res db2 hsync herr
    obtain ⟨m, hm⟩ := invoiceSyncBody_error_of env realm db herr
    unfold invoiceSync at hsync
    rw [hm] at hsync
    simp only [Except.ok.injEq, Prod.mk.injEq] at hsync
    obtain ⟨-, hdb⟩ := hsync
    subst hdb
    simp only
    rw [cursorAt_markFailure, cursorAt_markInProgress]

/-- Witness for C2 at a concrete row and a concrete fetch failure: the
stored cursor `some 3` survives both `markFailure` and a failing
cycle. -/
theorem C2_failure_preserves_cursor_witness :
    (∃ row2,
      SyncStateRepository.markFailure 9
        (fun _ => some { status := SyncStatus.success, cursor := some 3,
                         lastSyncAttempt := some 1, lastSyncSuccess := some 2,
                         errorMessage := none, createdAt := 0, updatedAt := 5 })
        ("realm1", ObjectType.invoice) "socket hang up"
        ("realm1", ObjectType.invoice) = some row2 ∧
      row2.status = SyncStatus.failure ∧
      row2.errorMessage = some "socket hang up" ∧ row2.cursor = some 3) ∧
    (∀ (res : SyncResult) (db2 : DBState),
      invoiceSync
        { stateReadErr := none, fetched := Except.error "socket hang up",
          upsertErr := none, t0 := 10, t1 := 11 } "realm1"
        { syncState :=
            fun _ => some { status := SyncStatus.success, cursor := some 3,
                            lastSyncAttempt := some 1, lastSyncSuccess := some 2,
                            errorMessage := none, createdAt := 0, updatedAt := 5 },
          customers := fun _ => none, invoices := fun _ => none,
          history := [] } = Except.ok (res, db2) →
      cursorAt db2.syncState (invoiceKey "realm1") = some 3) := by
  constructor
  · obtain ⟨row2, h1, h2, h3, h4, -⟩ := C2_failure_preserves_cursor.1 9
      (fun _ => some { status := SyncStatus.success, cursor := some 3,
                       lastSyncAttempt := some 1, lastSyncSuccess := some 2,
                       errorMessage := none, createdAt := 0, updatedAt := 5 })
      ("realm1", ObjectType.invoice)
      { status := SyncStatus.success, cursor := some 3,
        lastSyncAttempt := some 1, lastSyncSuccess := some 2,
        errorMessage := none, createdAt := 0, updatedAt := 5 }
      "socket hang up" rfl
    exact ⟨row2, h1, h2, h3, h4⟩
  · intro res db2 hsync
    have := C2_failure_preserves_cursor.2 _ _ _ _ _ hsync
      (Or.inr (Or.inl ⟨"socket hang up", rfl⟩))
    rw [this]
    rfl

/-! ## Claim C8 -/

/-- C8: a cycle whose query returns zero records calls `markSuccess` with
the unchanged pre-cycle cursor, resolves with `synced = 0, errors = 0`,
and leaves a stored row with status `success` whose cursor equals the
pre-cycle value (a present cursor stays, an absent one stays absent). -/
theorem C8_empty_cycle (env : CycleEnv) (realm : String) (db : DBState)
    (h1 : env.stateReadErr = none) (h2 : env.fetched = Except.ok []) :
    ∃ db2, invoiceSync env realm db = Except.ok (⟨0, 0⟩, db2) ∧
      db2.syncState =
        SyncStateRepository.markSuccess env.t1
          (SyncStateRepository.markInProgress env.t0 db.syncState
            (invoiceKey realm))
          (invoiceKey realm) (cursorAt db.syncState (invoiceKey realm)) ∧
      ∃ row, db2.syncState (invoiceKey realm) = some row ∧
        row.status = SyncStatus.success ∧
        row.cursor = cursorAt db.syncState (invoiceKey realm) := by
  refine ⟨{ db with
            syncState := SyncStateRepository.markSuccess env.t1
              (SyncStateRepository.markInProgress env.t0 db.syncState
                (invoiceKey realm))
              (invoiceKey realm)
              (cursorAt db.syncState (invoiceKey realm)) }, ?_, rfl, ?_⟩
  · unfold invoiceSync invoiceSyncBody
    simp [h1, h2, get_cursor_eq_cursorAt, cursorAt_markInProgress]
  · obtain ⟨row, hr, hs, hc, -, -⟩ :=
      markSuccess_apply env.t1
        (SyncStateRepository.markInProgress env.t0 db.syncState
          (invoiceKey realm))
        (invoiceKey realm) (cursorAt db.syncState (invoiceKey realm))
    exact ⟨row, hr, hs, hc⟩

/-- Witness for C8: a second cycle with stored cursor `some 3` and an
empty fetch keeps cursor `some 3` with status `success`. -/
theorem C8_empty_cycle_witness :
    ∃ db2,
      invoiceSync
        { stateReadErr := none, fetched := Except.ok [], upsertErr := none,
          t0 := 10, t1 := 11 } "realm1"
        { syncState :=
            fun _ => some { status := SyncStatus.success, cursor := some 3,
                            lastSyncAttempt := some 1, lastSyncSuccess := some 2,
                            errorMessage := none, createdAt := 0, updatedAt := 5 },
          customers := fun _ => none, invoices := fun _ => none,
          history := [] } = Except.ok (⟨0, 0⟩, db2) ∧
      ∃ row, db2.syncState (invoiceKey "realm1") = some row ∧
        row.status = SyncStatus.success ∧ row.cursor = some 3 := by
  obtain ⟨db2, hrun, -, row, hrow, hs, hc⟩ :=
    C8_empty_cycle
      { stateReadErr := none, fetched := Except.ok [], upsertErr := none,
        t0 := 10, t1 := 11 } "realm1"
      { syncState :=
          fun _ => some { status := SyncStatus.success, cursor := some 3,
                          lastSyncAttempt := some 1, lastSyncSuccess := some 2,
                          errorMessage := none, createdAt := 0, updatedAt := 5 },
        customers := fun _ => none, invoices := fun _ => none,
        history := [] } rfl rfl
  exact ⟨db2, hrun, row, hrow, hs, hc⟩

/-! ## Claim C4 -/

/-- C4: for every behaviour of the environment, `sync()` of both engines
resolves with a result value and never rejects; and whenever the `try`
block throws, the engine marks the failure with the exception's message
and resolves with `synced = 0, errors = 1`. -/
theorem C4_engine_swallows_exceptions :
    (∀ (env : CycleEnv) (realm : String) (db : DBState),
      ∃ res db2, invoiceSync env realm db = Except.ok (res, db2)) ∧
    (∀ (env : CycleEnv) (realm : String) (db : DBState),
      ∃ res db2, customerSync env realm db = Except.ok (res, db2)) ∧
    (∀ (env : CycleEnv) (realm : String) (db : DBState) (m : String),
      invoiceSyncBody env realm db = Except.error m →
      invoiceSync env realm db =
        Except.ok (⟨0, 1⟩,
          { db with
            syncState := SyncStateRepository.markFailure env.t1
              (SyncStateRepository.markInProgress env.t0 db.syncState
                (invoiceKey realm))
              (invoiceKey realm) m })) ∧
    (∀ (env : CycleEnv) (realm : String) (db : DBState) (m : String),
      customerSyncBody env realm db = Except.error m →
      ∃ db2, customerSync env realm db = Except.ok (⟨0, 1⟩, db2) ∧
        db2.syncState = SyncStateRepository.markFailure env.t1
          (SyncStateRepository.markInProgress env.t0 db.syncState
            (customerKey realm))
          (customerKey realm) m) := by
  refine ⟨?_, ?_, ?_, ?_⟩
  · intro env realm db
    unfold invoiceSync
    cases hbody : invoiceSyncBody env realm db with
    | ok x => exact ⟨x.1, x.2, rfl⟩
    | error m => exact ⟨_, _, rfl⟩
  · intro env realm db
    unfold customerSync
    cases hbody : customerSyncBody env realm db with
    | ok x => exact ⟨x.1, x.2, rfl⟩
    | error m => exact ⟨_, _, rfl⟩
  · intro env realm db m hbody
    unfold invoiceSync
    rw [hbody]
  · intro env realm db m hbody
    unfold customerSync
    rw [hbody]
    exact ⟨_, rfl, rfl⟩

/-- Witness for C4: a concrete cycle whose fetch rejects resolves with
`errors = 1` instead of propagating, for both engines. -/
theorem C4_engine_swallows_exceptions_witness :
    (∃ res db2,
      invoiceSync
        { stateReadErr := none, fetched := Except.error "rate limited",
          upsertErr := none, t0 := 0, t1 := 1 } "realm1"
        { syncState := fun _ => none, customers := fun _ => none,
          invoices := fun _ => none, history := [] } =
        Except.ok (res, db2)) ∧
    invoiceSync
      { stateReadErr := none, fetched := Except.error "rate limited",
        upsertErr := none, t0 := 0, t1 := 1 } "realm1"
      { syncState := fun _ => none, customers := fun _ => none,
        invoices := fun _ => none, history := [] } =
      Except.ok (⟨0, 1⟩,
        { syncState := SyncStateRepository.markFailure 1
            (SyncStateRepository.markInProgress 0 (fun _ => none)
              (invoiceKey "realm1"))
            (invoiceKey "realm1") "rate limited",
          customers := fun _ => none, invoices := fun _ => none,
          history := [] }) ∧
    (∃ db2,
      customerSync
        { stateReadErr := none, fetched := Except.error "rate limited",
          upsertErr := none, t0 := 0, t1 := 1 } "realm1"
        { syncState := fun _ => none, customers := fun _ => none,
          invoices := fun _ => none, history := [] } =
        Except.ok (⟨0, 1⟩, db2)) := by
  refine ⟨?_, ?_, ?_⟩
  · exact C4_engine_swallows_exceptions.1
      { stateReadErr := none, fetched := Except.error "rate limited",
        upsertErr := none, t0 := 0, t1 := 1 } "realm1"
      { syncState := fun _ => none, customers := fun _ => none,
        invoices := fun _ => none, history := [] }
  · exact C4_engine_swallows_exceptions.2.2.1
      { stateReadErr := none, fetched := Except.error "rate limited",
        upsertErr := none, t0 := 0, t1 := 1 } "realm1"
      { syncState := fun _ => none, customers := fun _ => none,
        invoices := fun _ => none, history := [] } "rate limited" rfl
  · obtain ⟨db2, hrun, -⟩ := C4_engine_swallows_exceptions.2.2.2
      { stateReadErr := none, fetched := Except.error "rate limited",
        upsertErr := none, t0 := 0, t1 := 1 } "realm1"
      { syncState := fun _ => none, customers := fun _ => none,
        invoices := fun _ => none, history := [] } "rate limited" rfl
    exact ⟨db2, hrun⟩

/-! ## Claim C3 -/

/-- `getMaxTimestamp` of a batch in which no record carries
`MetaData.LastUpdatedTime` is `none`. -/
theorem getMaxTimestamp_eq_none {recs : List QBRecord}
    (h : ∀ r ∈ recs, r.lastUpdatedTime = none) :
    getMaxTimestamp recs = none := by
  unfold getMaxTimestamp
  split
  · rfl
  · rw [List.filterMap_eq_nil_iff.mpr h]

theorem invoiceUpsertOne_isSome (now : Nat) (t : InvoiceTable)
    (v : InvoiceInput) (i : String)
    (h : (t i).isSome = true ∨ v.id = i) :
    ((invoiceUpsertOne now t v i).isSome) = true := by
  unfold invoiceUpsertOne
  by_cases hid : i = v.id
  · subst hid
    cases ht : t v.id <;> simp [ht]
  · rcases h with h | h
    · simp [hid, h]
    · exact absurd h.symm hid

theorem invoiceFoldl_isSome (now : Nat) (vs : List InvoiceInput) :
    ∀ (t : InvoiceTable) (i : String),
      ((t i).isSome = true ∨ ∃ v ∈ vs, v.id = i) →
      ((vs.foldl (invoiceUpsertOne now) t) i).isSome = true := by
  induction vs with
  | nil =>
      intro t i h
      rcases h with h | ⟨v, hv, -⟩
      · exact h
      · exact absurd hv (List.not_mem_nil v)
  | cons v vs ih =>
      intro t i h
      refine ih (invoiceUpsertOne now t v) i ?_
      rcases h with h | ⟨v2, hv2, hid⟩
      · exact Or.inl (invoiceUpsertOne_isSome now t v i (Or.inl h))
      · rcases List.mem_cons.mp hv2 with rfl | hv2
        · exact Or.inl (invoiceUpsertOne_isSome now t v2 i (Or.inr hid))
        · exact Or.inr ⟨v2, hv2, hid⟩

/-- Every id of the batch is present in the table after
`InvoiceRepository.batchUpsert`. -/
theorem invoiceBatchUpsert_mem (now : Nat) (t : InvoiceTable)
    (vs : List InvoiceInput) (v : InvoiceInput) (hv : v ∈ vs) :
    ∃ row, invoiceBatchUpsert now t vs v.id = some row := by
  have hne : vs ≠ [] := by
    intro hnil
    rw [hnil] at hv
    exact List.not_mem_nil v hv
  unfold invoiceBatchUpsert
  rw [if_neg hne]
  have := invoiceFoldl_isSome now vs t v.id (Or.inr ⟨v, hv, rfl⟩)
  exact Option.isSome_iff_exists.mp this

/-- Counterexample to C3 as stated: with a stored cursor `some 3`, a
cycle fetching one record that lacks `MetaData.LastUpdatedTime`
completes successfully but stores cursor `none` — the pre-cycle cursor
is cleared, not preserved. -/
theorem C3_timestampless_batch_counterexample :
    cursorAt
      (invoiceStep
        { stateReadErr := none,
          fetched := Except.ok [{ recId := "i1", lastUpdatedTime := none,
                                  customerRef := none, payload := "raw" }],
          upsertErr := none, t0 := 10, t1 := 11 } "realm1"
        { syncState :=
            fun _ => some { status := SyncStatus.success, cursor := some 3,
                            lastSyncAttempt := some 1, lastSyncSuccess := some 2,
                            errorMessage := none, createdAt := 0, updatedAt := 5 },
          customers := fun _ => none, invoices := fun _ => none,
          history := [] }).syncState (invoiceKey "realm1") = none ∧
    cursorAt
      (fun (_ : SyncKey) =>
        some { status := SyncStatus.success, cursor := some 3,
               lastSyncAttempt := some 1, lastSyncSuccess := some 2,
               errorMessage := none, createdAt := 0, updatedAt := 5 })
      (invoiceKey "realm1") = some 3 ∧
    (none : Option Nat) ≠ some 3 := by
  refine ⟨?_, rfl, by decide⟩
  decide

/-- C3 amended: a successful cycle fetching `n ≥ 1` records all lacking
`MetaData.LastUpdatedTime` persists every record to the entity
repository, but stores cursor `none` afterwards — the cursor is cleared
(so it equals the pre-cycle cursor only when that was already absent),
because `markSuccess` is called with the `undefined` result of
`getMaxTimestamp`. -/
theorem C3_timestampless_batch_clears_cursor (env : CycleEnv)
    (realm : String) (db : DBState) (recs : List QBRecord)
    (h1 : env.stateReadErr = none) (h2 : env.fetched = Except.ok recs)
    (h3 : recs ≠ []) (h4 : ∀ r ∈ recs, r.lastUpdatedTime = none)
    (h5 : env.upsertErr = none) :
    ∃ db2, invoiceSync env realm db = Except.ok (⟨recs.length, 0⟩, db2) ∧
      (∀ r ∈ recs, ∃ row, db2.invoices r.recId = some row) ∧
      cursorAt db2.syncState (invoiceKey realm) = none := by
  refine ⟨{ db with
            syncState := SyncStateRepository.markSuccess env.t1
              (SyncStateRepository.markInProgress env.t0 db.syncState
                (invoiceKey realm))
              (invoiceKey realm) (getMaxTimestamp recs)
            invoices := invoiceBatchUpsert env.t1 db.invoices
              (recs.map (fun inv =>
                ({ id := inv.recId, realmId := realm,
                   customerId := inv.customerRef,
                   rawData := inv.payload } : InvoiceInput))) }, ?_, ?_, ?_⟩
  · unfold invoiceSync invoiceSyncBody
    simp [h1, h2, h3, h5]
  · intro r hr
    have := invoiceBatchUpsert_mem env.t1 db.invoices
      (recs.map (fun inv =>
        ({ id := inv.recId, realmId := realm,
           customerId := inv.customerRef,
           rawData := inv.payload } : InvoiceInput)))
      { id := r.recId, realmId := realm, customerId := r.customerRef,
        rawData := r.payload }
      (List.mem_map_of_mem _ hr)
    exact this
  · rw [cursorAt_markSuccess, getMaxTimestamp_eq_none h4]

/-- Witness for the amended C3 at the counterexample's input. -/
theorem C3_timestampless_batch_clears_cursor_witness :
    ∃ db2,
      invoiceSync
        { stateReadErr := none,
          fetched := Except.ok [{ recId := "i1", lastUpdatedTime := none,
                                  customerRef := none, payload := "raw" }],
          upsertErr := none, t0 := 10, t1 := 11 } "realm1"
        { syncState :=
            fun _ => some { status := SyncStatus.success, cursor := some 3,
                            lastSyncAttempt := some 1, lastSyncSuccess := some 2,
                            errorMessage := none, createdAt := 0, updatedAt := 5 },
          customers := fun _ => none, invoices := fun _ => none,
          history := [] } = Except.ok (⟨1, 0⟩, db2) ∧
      (∃ row, db2.invoices "i1" = some row) ∧
      cursorAt db2.syncState (invoiceKey "realm1") = none := by
  obtain ⟨db2, hrun, hpers, hcur⟩ :=
    C3_timestampless_batch_clears_cursor
      { stateReadErr := none,
        fetched := Except.ok [{ recId := "i1", lastUpdatedTime := none,
                                customerRef := none, payload := "raw" }],
        upsertErr := none, t0 := 10, t1 := 11 } "realm1"
      { syncState :=
          fun _ => some { status := SyncStatus.success, cursor := some 3,
                          lastSyncAttempt := some 1, lastSyncSuccess := some 2,
                          errorMessage := none, createdAt := 0, updatedAt := 5 },
        customers := fun _ => none, invoices := fun _ => none,
        history := [] }
      [{ recId := "i1", lastUpdatedTime := none, customerRef := none,
         payload := "raw" }]
      rfl rfl (by simp)
      (by
        intro r hr
        rw [List.mem_singleton] at hr
        subst hr
        rfl)
      rfl
  exact ⟨db2, hrun,
    hpers { recId := "i1", lastUpdatedTime := none, customerRef := none,
            payload := "raw" } (List.mem_singleton.mpr rfl), hcur⟩

/-! ## Claim C1 -/

theorem le_foldl_max (l : List Nat) : ∀ a : Nat, a ≤ l.foldl Nat.max a := by
  induction l with
  | nil => intro a; exact le_refl a
  | cons b l ih =>
      intro a
      exact le_trans (Nat.le_max_left a b) (ih (Nat.max a b))

/-- On a non-empty batch whose every record carries a timestamp beyond
the cursor `c`, `getMaxTimestamp` yields a timestamp beyond `c`. -/
theorem getMaxTimestamp_fresh {c : Option Nat} {r : QBRecord}
    {rs : List QBRecord}
    (h : ∀ x ∈ r :: rs, ∃ t, x.lastUpdatedTime = some t ∧ cursorLtO c t) :
    ∃ m, getMaxTimestamp (r :: rs) = some m ∧ cursorLtO c m := by
  obtain ⟨t, ht, hlt⟩ := h r (List.mem_cons_self r rs)
  have hfm : (r :: rs).filterMap (fun x => x.lastUpdatedTime) =
      t :: rs.filterMap (fun x => x.lastUpdatedTime) := by
    simp [ht]
  refine ⟨(rs.filterMap (fun x => x.lastUpdatedTime)).foldl Nat.max t, ?_, ?_⟩
  · unfold getMaxTimestamp
    rw [if_neg (by simp), hfm]
  · have hle := le_foldl_max (rs.filterMap (fun x => x.lastUpdatedTime)) t
    cases c with
    | none => trivial
    | some v => exact lt_of_lt_of_le hlt hle

/-- One fresh successful cycle never decreases the stored cursor. -/
theorem invoiceStep_cursorLe (env : CycleEnv) (realm : String)
    (db : DBState)
    (h : FreshSuccessCycle env (cursorAt db.syncState (invoiceKey realm))) :
    cursorLe (cursorAt db.syncState (invoiceKey realm))
      (cursorAt (invoiceStep env realm db).syncState (invoiceKey realm)) := by
  obtain ⟨h1, recs, h2, h3, h4⟩ := h
  cases recs with
  | nil =>
      unfold invoiceStep invoiceSync invoiceSyncBody
      simp [h1, h2, get_cursor_eq_cursorAt, cursorAt_markInProgress,
        cursorAt_markSuccess]
      exact cursorLe_refl _
  | cons r rs =>
      have h5 : env.upsertErr = none := by
        rcases h3 with h3 | h3
        · exact absurd h3 (by simp)
        · exact h3
      obtain ⟨m, hm, hlt⟩ := getMaxTimestamp_fresh h4
      unfold invoiceStep invoiceSync invoiceSyncBody
      simp [h1, h2, h5, cursorAt_markSuccess, hm]
      cases hc : cursorAt db.syncState (invoiceKey realm) with
      | none => trivial
      | some v =>
          rw [hc] at hlt
          exact le_of_lt hlt

theorem runInvoice_append (realm : String) (es1 es2 : List CycleEnv) :
    ∀ db : DBState,
      runInvoice realm (es1 ++ es2) db =
        runInvoice realm es2 (runInvoice realm es1 db) := by
  induction es1 with
  | nil => intro db; rfl
  | cons e es ih => intro db; exact ih (invoiceStep e realm db)

theorem GoodInvoiceRun_append (realm : String) (es1 es2 : List CycleEnv) :
    ∀ db : DBState, GoodInvoiceRun realm (es1 ++ es2) db →
      GoodInvoiceRun realm es2 (runInvoice realm es1 db) := by
  induction es1 with
  | nil => intro db h; exact h
  | cons e es ih => intro db h; exact ih (invoiceStep e realm db) h.2

theorem runInvoice_cursorLe (realm : String) (es : List CycleEnv) :
    ∀ db : DBState, GoodInvoiceRun realm es db →
      cursorLe (cursorAt db.syncState (invoiceKey realm))
        (cursorAt (runInvoice realm es db).syncState (invoiceKey realm)) := by
  induction es with
  | nil => intro db _; exact cursorLe_refl _
  | cons e es ih =>
      intro db h
      exact cursorLe_trans (invoiceStep_cursorLe e realm db h.1)
        (ih (invoiceStep e realm db) h.2)

/-- C1: along any sequence of successful invoice cycles in which every
fetched record carries a timestamp strictly beyond the cursor used in
its query, the stored cursor is non-decreasing (between any two points
of the sequence); and any successful cycle whose query returns zero
records leaves the stored cursor exactly equal to its pre-cycle
value. -/
theorem C1_cursor_monotonicity :
    (∀ (realm : String) (es1 es2 : List CycleEnv) (db : DBState),
      GoodInvoiceRun realm (es1 ++ es2) db →
      cursorLe
        (cursorAt (runInvoice realm es1 db).syncState (invoiceKey realm))
        (cursorAt (runInvoice realm (es1 ++ es2) db).syncState
          (invoiceKey realm))) ∧
    (∀ (env : CycleEnv) (realm : String) (db : DBState),
      env.stateReadErr = none → env.fetched = Except.ok [] →
      cursorAt (invoiceStep env realm db).syncState (invoiceKey realm) =
        cursorAt db.syncState (invoiceKey realm)) := by
  constructor
  · intro realm es1 es2 db h
    rw [runInvoice_append realm es1 es2 db]
    exact runInvoice_cursorLe realm es2 (runInvoice realm es1 db)
      (GoodInvoiceRun_append realm es1 es2 db h)
  · intro env realm db h1 h2
    unfold invoiceStep invoiceSync invoiceSyncBody
    simp [h1, h2, get_cursor_eq_cursorAt, cursorAt_markInProgress,
      cursorAt_markSuccess]

/-- Witness for C1: a fresh successful cycle from the never-synced state
advances the cursor monotonically, and a concrete empty cycle leaves it
unchanged. -/
theorem C1_cursor_monotonicity_witness :
    cursorLe
      (cursorAt
        (runInvoice "realm1" []
          { syncState := fun _ => none, customers := fun _ => none,
            invoices := fun _ => none, history := [] }).syncState
        (invoiceKey "realm1"))
      (cursorAt
        (runInvoice "realm1"
          ([] ++ [{ stateReadErr := none,
                    fetched := Except.ok
                      [{ recId := "i1", lastUpdatedTime := some 5,
                         customerRef := none, payload := "raw" }],
                    upsertErr := none, t0 := 0, t1 := 1 }])
          { syncState := fun _ => none, customers := fun _ => none,
            invoices := fun _ => none, history := [] }).syncState
        (invoiceKey "realm1")) ∧
    cursorAt
      (invoiceStep
        { stateReadErr := none, fetched := Except.ok [], upsertErr := none,
          t0 := 0, t1 := 1 } "realm1"
        { syncState := fun _ => none, customers := fun _ => none,
          invoices := fun _ => none, history := [] }).syncState
      (invoiceKey "realm1") =
      cursorAt (fun (_ : SyncKey) => (none : Option SyncStateRow))
        (invoiceKey "realm1") := by
  constructor
  · refine C1_cursor_monotonicity.1 "realm1" [] _ _ ⟨?_, trivial⟩
    refine ⟨rfl,
      [{ recId := "i1", lastUpdatedTime := some 5, customerRef := none,
         payload := "raw" }],
      rfl, Or.inr rfl, ?_⟩
    intro r hr
    rw [List.mem_singleton] at hr
    subst hr
    exact ⟨5, rfl, trivial⟩
  · exact C1_cursor_monotonicity.2
      { stateReadErr := none, fetched := Except.ok [], upsertErr := none,
        t0 := 0, t1 := 1 } "realm1"
      { syncState := fun _ => none, customers := fun _ => none,
        invoices := fun _ => none, history := [] } rfl rfl

/-! ## Claim C7 -/

/-- Counterexample to C7 as stated: `markFailure` followed by
`markInProgress` leaves a row whose status is `in_progress` — not
`failure` — while its `errorMessage` is still the non-null `"boom"`. -/
theorem C7_errorMessage_counterexample :
    ∃ row,
      applyStateOps
        [StateOp.mfail ("realm1", ObjectType.invoice) 1 "boom",
         StateOp.mip ("realm1", ObjectType.invoice) 2]
        ("realm1", ObjectType.invoice) = some row ∧
      row.errorMessage = some "boom" ∧
      row.status = SyncStatus.inProgress ∧
      row.status ≠ SyncStatus.failure := by
  refine ⟨{ status := SyncStatus.inProgress, cursor := none,
            lastSyncAttempt := some 2, lastSyncSuccess := none,
            errorMessage := some "boom", createdAt := 1, updatedAt := 2 },
          ?_, rfl, rfl, by decide⟩
  decide

theorem applyStateOp_errInv {s : SyncStateTable} (h : ErrMsgInv s)
    (op : StateOp) : ErrMsgInv (applyStateOp s op) := by
  cases op with
  | mip k now =>
      intro k2 row hrow herr
      simp only [applyStateOp, SyncStateRepository.markInProgress] at hrow
      by_cases hk : k2 = k
      · rw [if_pos hk] at hrow
        cases hs : s k with
        | none =>
            rw [hs] at hrow
            cases hrow
            exact absurd rfl herr
        | some old =>
            rw [hs] at hrow
            cases hrow
            exact Or.inr rfl
      · rw [if_neg hk] at hrow
        exact h k2 row hrow herr
  | msucc k now c =>
      intro k2 row hrow herr
      simp only [applyStateOp, SyncStateRepository.markSuccess] at hrow
      by_cases hk : k2 = k
      · rw [if_pos hk] at hrow
        cases hs : s k with
        | none =>
            rw [hs] at hrow
            cases hrow
            exact absurd rfl herr
        | some old =>
            rw [hs] at hrow
            cases hrow
            exact absurd rfl herr
      · rw [if_neg hk] at hrow
        exact h k2 row hrow herr
  | mfail k now m =>
      intro k2 row hrow herr
      simp only [applyStateOp, SyncStateRepository.markFailure] at hrow
      by_cases hk : k2 = k
      · rw [if_pos hk] at hrow
        cases hs : s k with
        | none =>
            rw [hs] at hrow
            cases hrow
            exact Or.inl rfl
        | some old =>
            rw [hs] at hrow
            cases hrow
            exact Or.inl rfl
      · rw [if_neg hk] at hrow
        exact h k2 row hrow herr
  | rst k now =>
      intro k2 row hrow herr
      simp only [applyStateOp, SyncStateRepository.reset] at hrow
      by_cases hk : k2 = k
      · rw [if_pos hk] at hrow
        cases hs : s k with
        | none =>
            rw [hs] at hrow
            cases hrow
            exact absurd rfl herr
        | some old =>
            rw [hs] at hrow
            cases hrow
            exact absurd rfl herr
      · rw [if_neg hk] at hrow
        exact h k2 row hrow herr

theorem foldl_stateOps_errInv (ops : List StateOp) :
    ∀ s : SyncStateTable, ErrMsgInv s →
      ErrMsgInv (ops.foldl applyStateOp s) := by
  induction ops with
  | nil => intro s h; exact h
  | cons op ops ih =>
      intro s h
      exact ih (applyStateOp s op) (applyStateOp_errInv h op)

/-- C7 amended: in every sync-state table reachable by the store's
operations, a non-null `errorMessage` accompanies status `failure` or
`in_progress` (it survives `markInProgress`, so it is not exclusive to
`failure`); and immediately after every `markSuccess` the row's
`errorMessage` is null. -/
theorem C7_errorMessage_invariant :
    (∀ ops : List StateOp, ErrMsgInv (applyStateOps ops)) ∧
    (∀ (now : Nat) (s : SyncStateTable) (k : SyncKey) (c : Option Nat),
      ∃ row, SyncStateRepository.markSuccess now s k c k = some row ∧
        row.errorMessage = none) := by
  constructor
  · intro ops
    exact foldl_stateOps_errInv ops emptySyncState
      (fun k row hrow _ => by cases hrow)
  · intro now s k c
    obtain ⟨row, hr, -, -, herr, -⟩ := markSuccess_apply now s k c
    exact ⟨row, hr, herr⟩

/-- Witness for C7 amended: the reachable row of the counterexample run
satisfies the amended invariant, and a concrete `markSuccess` clears the
message. -/
theorem C7_errorMessage_invariant_witness :
    (∀ row,
      applyStateOps
        [StateOp.mfail ("realm1", ObjectType.invoice) 1 "boom",
         StateOp.mip ("realm1", ObjectType.invoice) 2]
        ("realm1", ObjectType.invoice) = some row →
      row.errorMessage ≠ none →
      row.status = SyncStatus.failure ∨
        row.status = SyncStatus.inProgress) ∧
    (∃ row,
      SyncStateRepository.markSuccess 3
        (applyStateOps
          [StateOp.mfail ("realm1", ObjectType.invoice) 1 "boom"])
        ("realm1", ObjectType.invoice) (some 5)
        ("realm1", ObjectType.invoice) = some row ∧
      row.errorMessage = none) := by
  constructor
  · intro row hrow herr
    exact C7_errorMessage_invariant.1
      [StateOp.mfail ("realm1", ObjectType.invoice) 1 "boom",
       StateOp.mip ("realm1", ObjectType.invoice) 2]
      ("realm1", ObjectType.invoice) row hrow herr
  · exact C7_errorMessage_invariant.2 3
      (applyStateOps
        [StateOp.mfail ("realm1", ObjectType.invoice) 1 "boom"])
      ("realm1", ObjectType.invoice) (some 5)

/-! ## Claim C5 -/

/-- A completed `try` block of the customer engine appends exactly one
history row. -/
theorem customerSyncBody_ok_history (env : CycleEnv) (realm : String)
    (db : DBState) (res : SyncResult) (db2 : DBState)
    (h : customerSyncBody env realm db = Except.ok (res, db2)) :
    ∃ rec, db2.history = db.history ++ [rec] := by
  unfold customerSyncBody at h
  cases hsr : env.stateReadErr with
  | some m =>
      simp only [hsr] at h
      exact Except.noConfusion h
  | none =>
    simp only [hsr] at h
    cases hf : env.fetched with
    | error m =>
        simp only [hf] at h
        exact Except.noConfusion h
    | ok recs =>
      simp only [hf] at h
      by_cases hrec : recs = []
      · simp only [if_pos hrec] at h
        cases h
        exact ⟨_, rfl⟩
      · simp only [if_neg hrec] at h
        cases hup : env.upsertErr with
        | some m =>
            simp only [hup] at h
            exact Except.noConfusion h
        | none =>
          simp only [hup] at h
          cases h
          exact ⟨_, rfl⟩

/-- No branch of the invoice engine's `try` block touches the history
log. -/
theorem invoiceSyncBody_ok_history (env : CycleEnv) (realm : String)
    (db : DBState) (res : SyncResult) (db2 : DBState)
    (h : invoiceSyncBody env realm db = Except.ok (res, db2)) :
    db2.history = db.history := by
  unfold invoiceSyncBody at h
  cases hsr : env.stateReadErr with
  | some m =>
      simp only [hsr] at h
      exact Except.noConfusion h
  | none =>
    simp only [hsr] at h
    cases hf : env.fetched with
    | error m =>
        simp only [hf] at h
        exact Except.noConfusion h
    | ok recs =>
      simp only [hf] at h
      by_cases hrec : recs = []
      · simp only [if_pos hrec] at h
        cases h
        rfl
      · simp only [if_neg hrec] at h
        cases hup : env.upsertErr with
        | some m =>
            simp only [hup] at h
            exact Except.noConfusion h
        | none =>
          simp only [hup] at h
          cases h
          rfl

/-- Counterexample to C5 as stated, refuting two of its conjuncts at
concrete inputs.  First, a concrete invoice cycle that completes
successfully (one record fetched, no errors) appends no record at all
to the sync history log — the invoice engine never writes history.
Second, a concrete customer cycle that fails in the sync-state read of
step 2, with a stored pre-cycle cursor `some 3`, appends a failure
record whose cursor-before and cursor-after slots are both null — the
pre-cycle cursor appears in neither slot, because `cursorBefore` is
still unassigned when the read throws. -/
theorem C5_history_counterexample :
    (∃ db2,
      invoiceSync
        { stateReadErr := none,
          fetched := Except.ok [{ recId := "i1", lastUpdatedTime := some 5,
                                  customerRef := none, payload := "raw" }],
          upsertErr := none, t0 := 0, t1 := 1 } "realm1"
        { syncState := fun _ => none, customers := fun _ => none,
          invoices := fun _ => none, history := [] } =
        Except.ok (⟨1, 0⟩, db2) ∧
      db2.history.length = 0) ∧
    (∃ db2 rec,
      customerSync
        { stateReadErr := some "database is locked",
          fetched := Except.ok [], upsertErr := none, t0 := 10, t1 := 11 }
        "realm1"
        { syncState :=
            fun _ => some { status := SyncStatus.success, cursor := some 3,
                            lastSyncAttempt := some 1, lastSyncSuccess := some 2,
                            errorMessage := none, createdAt := 0, updatedAt := 5 },
          customers := fun _ => none, invoices := fun _ => none,
          history := [] } = Except.ok (⟨0, 1⟩, db2) ∧
      db2.history = [rec] ∧
      rec.status = SyncHistoryStatus.failure ∧
      rec.cursorBefore = none ∧ rec.cursorAfter = none ∧
      cursorAt
        (fun (_ : SyncKey) =>
          some { status := SyncStatus.success, cursor := some 3,
                 lastSyncAttempt := some 1, lastSyncSuccess := some 2,
                 errorMessage := none, createdAt := 0, updatedAt := 5 })
        (customerKey "realm1") = some 3 ∧
      (none : Option Nat) ≠ some 3) := by
  constructor
  · refine ⟨invoiceStep
      { stateReadErr := none,
        fetched := Except.ok [{ recId := "i1", lastUpdatedTime := some 5,
                                customerRef := none, payload := "raw" }],
        upsertErr := none, t0 := 0, t1 := 1 } "realm1"
      { syncState := fun _ => none, customers := fun _ => none,
        invoices := fun _ => none, history := [] }, rfl, ?_⟩
    decide
  · refine ⟨customerStep
      { stateReadErr := some "database is locked",
        fetched := Except.ok [], upsertErr := none, t0 := 10, t1 := 11 }
      "realm1"
      { syncState :=
          fun _ => some { status := SyncStatus.success, cursor := some 3,
                          lastSyncAttempt := some 1, lastSyncSuccess := some 2,
                          errorMessage := none, createdAt := 0, updatedAt := 5 },
        customers := fun _ => none, invoices := fun _ => none,
        history := [] },
      _, rfl, rfl, ?_, ?_, ?_, rfl, ?_⟩ <;> decide

/-- C5 amended: every completed or failed `sync()` cycle of the
*customer* engine appends exactly one record to the sync history log,
carrying the realm, object type, record counts, duration and
start/completion times; a completed cycle logs status success with the
pre-cycle cursor as cursor-before and, as cursor-after, the unchanged
cursor (empty batch) or `getMaxTimestamp` of the batch; a cycle failing
at the fetch or the storage upsert logs status failure with the
pre-cycle cursor in both cursor slots; a cycle failing in the sync-state
read itself logs status failure with *both cursor slots null*, even when
the pre-cycle cursor was not.  The *invoice* engine appends no history
record on any cycle. -/
theorem C5_history_per_cycle :
    (∀ (env : CycleEnv) (realm : String) (db : DBState) (res : SyncResult)
        (db2 : DBState),
      customerSync env realm db = Except.ok (res, db2) →
      db2.history.length = db.history.length + 1) ∧
    (∀ (env : CycleEnv) (realm : String) (db : DBState) (res : SyncResult)
        (db2 : DBState),
      invoiceSync env realm db = Except.ok (res, db2) →
      db2.history = db.history) ∧
    (∀ (env : CycleEnv) (realm : String) (db : DBState) (res : SyncResult)
        (db2 : DBState) (recs : List QBRecord),
      env.stateReadErr = none → env.fetched = Except.ok recs →
      (recs = [] ∨ env.upsertErr = none) →
      customerSync env realm db = Except.ok (res, db2) →
      ∃ rec, db2.history = db.history ++ [rec] ∧
        rec.realmId = realm ∧ rec.objectType = ObjectType.customer ∧
        rec.status = SyncHistoryStatus.success ∧
        rec.recordsSynced = recs.length ∧ rec.recordsFailed = 0 ∧
        rec.durationMs = natOrNull (some (env.t1 - env.t0)) ∧
        rec.startedAt = env.t0 ∧
        rec.completedAt = natOrNull (some env.t1) ∧
        rec.cursorBefore = cursorAt db.syncState (customerKey realm) ∧
        ((recs = [] ∧ rec.cursorAfter = rec.cursorBefore) ∨
          (recs ≠ [] ∧ rec.cursorAfter = getMaxTimestamp recs))) ∧
    (∀ (env : CycleEnv) (realm : String) (db : DBState) (res : SyncResult)
        (db2 : DBState),
      env.stateReadErr = none →
      ((∃ m, env.fetched = Except.error m) ∨
        (∃ recs m, env.fetched = Except.ok recs ∧ recs ≠ [] ∧
          env.upsertErr = some m)) →
      customerSync env realm db = Except.ok (res, db2) →
      ∃ rec, db2.history = db.history ++ [rec] ∧
        rec.realmId = realm ∧ rec.objectType = ObjectType.customer ∧
        rec.status = SyncHistoryStatus.failure ∧
        rec.recordsSynced = 0 ∧ rec.recordsFailed = 1 ∧
        rec.durationMs = natOrNull (some (env.t1 - env.t0)) ∧
        rec.startedAt = env.t0 ∧
        rec.completedAt = natOrNull (some env.t1) ∧
        rec.cursorBefore = cursorAt db.syncState (customerKey realm) ∧
        rec.cursorAfter = rec.cursorBefore) ∧
    (∀ (env : CycleEnv) (realm : String) (db : DBState) (res : SyncResult)
        (db2 : DBState) (m : String),
      env.stateReadErr = some m →
      customerSync env realm db = Except.ok (res, db2) →
      ∃ rec, db2.history = db.history ++ [rec] ∧
        rec.status = SyncHistoryStatus.failure ∧
        rec.recordsSynced = 0 ∧ rec.recordsFailed = 1 ∧
        rec.cursorBefore = none ∧ rec.cursorAfter = none) := by
  refine ⟨?_, ?_, ?_, ?_, ?_⟩
  · intro env realm db res db2 hsync
    unfold customerSync at hsync
    cases hbody : customerSyncBody env realm db with
    | ok x =>
        rw [hbody] at hsync
        cases hsync
        obtain ⟨rec, hrec⟩ :=
          customerSyncBody_ok_history env realm db res db2 hbody
        rw [hrec, List.length_append]
        rfl
    | error m =>
        rw [hbody] at hsync
        cases hsync
        simp [syncHistoryCreate]
  · intro env realm db res db2 hsync
    unfold invoiceSync at hsync
    cases hbody : invoiceSyncBody env realm db with
    | ok x =>
        rw [hbody] at hsync
        cases hsync
        exact invoiceSyncBody_ok_history env realm db res db2 hbody
    | error m =>
        rw [hbody] at hsync
        cases hsync
        rfl
  · intro env realm db res db2 recs h1 h2 h3 hsync
    unfold customerSync customerSyncBody at hsync
    by_cases hrec : recs = []
    · simp only [h1, h2, if_pos hrec] at hsync
      cases hsync
      refine ⟨_, rfl, rfl, rfl, rfl, ?_, rfl, rfl, rfl, rfl, ?_,
        Or.inl ⟨hrec, rfl⟩⟩
      · simp [hrec]
      · simp [get_cursor_eq_cursorAt, cursorAt_markInProgress]
    · have hup : env.upsertErr = none := by
        rcases h3 with h3 | h3
        · exact absurd h3 hrec
        · exact h3
      simp only [h1, h2, if_neg hrec, hup] at hsync
      cases hsync
      refine ⟨_, rfl, rfl, rfl, rfl, rfl, rfl, rfl, rfl, rfl, ?_,
        Or.inr ⟨hrec, rfl⟩⟩
      simp [get_cursor_eq_cursorAt, cursorAt_markInProgress]
  · intro env realm db res db2 h1 herr hsync
    have hbody : ∃ m, customerSyncBody env realm db = Except.error m := by
      rcases herr with ⟨m, hm⟩ | ⟨recs, m, hok, hne, hup⟩
      · exact ⟨m, by unfold customerSyncBody; simp [h1, hm]⟩
      · exact ⟨m, by unfold customerSyncBody; simp [h1, hok, hne, hup]⟩
    obtain ⟨m, hbody⟩ := hbody
    unfold customerSync at hsync
    rw [hbody] at hsync
    cases hsync
    refine ⟨_, rfl, rfl, rfl, rfl, rfl, rfl, rfl, rfl, rfl, ?_, rfl⟩
    simp [h1, get_cursor_eq_cursorAt, cursorAt_markInProgress]
  · intro env realm db res db2 m hsr hsync
    have hbody : customerSyncBody env realm db = Except.error m := by
      unfold customerSyncBody
      simp [hsr]
    unfold customerSync at hsync
    rw [hbody] at hsync
    cases hsync
    refine ⟨_, rfl, rfl, rfl, rfl, ?_, ?_⟩
    · simp [hsr]
    · simp [hsr]

/-- Witness for C5 amended, exercising each clause at concrete inputs:
a failing fetch logs one failure row with cursor `some 3` in both slots;
an empty successful cycle logs one success row with cursor `some 3` in
both slots and zero counts; a failing sync-state read logs one failure
row with both slots null; and the invoice engine's cycle appends
nothing. -/
theorem C5_history_per_cycle_witness :
    (∀ (res : SyncResult) (db2 : DBState),
      customerSync
        { stateReadErr := none, fetched := Except.error "socket hang up",
          upsertErr := none, t0 := 10, t1 := 11 } "realm1"
        { syncState :=
            fun _ => some { status := SyncStatus.success, cursor := some 3,
                            lastSyncAttempt := some 1, lastSyncSuccess := some 2,
                            errorMessage := none, createdAt := 0, updatedAt := 5 },
          customers := fun _ => none, invoices := fun _ => none,
          history := [] } = Except.ok (res, db2) →
      db2.history.length = 1 ∧
        ∃ rec, db2.history = [rec] ∧
          rec.status = SyncHistoryStatus.failure ∧
          rec.recordsSynced = 0 ∧ rec.recordsFailed = 1 ∧
          rec.cursorBefore = some 3 ∧ rec.cursorAfter = rec.cursorBefore) ∧
    (∀ (res : SyncResult) (db2 : DBState),
      customerSync
        { stateReadErr := none, fetched := Except.ok [], upsertErr := none,
          t0 := 10, t1 := 11 } "realm1"
        { syncState :=
            fun _ => some { status := SyncStatus.success, cursor := some 3,
                            lastSyncAttempt := some 1, lastSyncSuccess := some 2,
                            errorMessage := none, createdAt := 0, updatedAt := 5 },
          customers := fun _ => none, invoices := fun _ => none,
          history := [] } = Except.ok (res, db2) →
      ∃ rec, db2.history = [rec] ∧
        rec.status = SyncHistoryStatus.success ∧
        rec.recordsSynced = 0 ∧ rec.recordsFailed = 0 ∧
        rec.cursorBefore = some 3 ∧ rec.cursorAfter = rec.cursorBefore) ∧
    (∀ (res : SyncResult) (db2 : DBState),
      customerSync
        { stateReadErr := some "database is locked",
          fetched := Except.ok [], upsertErr := none, t0 := 10, t1 := 11 }
        "realm1"
        { syncState :=
            fun _ => some { status := SyncStatus.success, cursor := some 3,
                            lastSyncAttempt := some 1, lastSyncSuccess := some 2,
                            errorMessage := none, createdAt := 0, updatedAt := 5 },
          customers := fun _ => none, invoices := fun _ => none,
          history := [] } = Except.ok (res, db2) →
      ∃ rec, db2.history = [rec] ∧
        rec.status = SyncHistoryStatus.failure ∧
        rec.cursorBefore = none ∧ rec.cursorAfter = none) ∧
    (∀ (res : SyncResult) (db2 : DBState),
      invoiceSync
        { stateReadErr := none, fetched := Except.ok [], upsertErr := none,
          t0 := 10, t1 := 11 } "realm1"
        { syncState := fun _ => none, customers := fun _ => none,
          invoices := fun _ => none, history := [] } =
        Except.ok (res, db2) →
      db2.history = []) := by
  refine ⟨?_, ?_, ?_, ?_⟩
  · intro res db2 hsync
    have hlen := C5_history_per_cycle.1 _ _ _ _ _ hsync
    obtain ⟨rec, hrec, -, -, hst, hrs, hrf, -, -, -, hcb, hca⟩ :=
      C5_history_per_cycle.2.2.2.1 _ "realm1" _ res db2
        rfl (Or.inl ⟨"socket hang up", rfl⟩) hsync
    refine ⟨hlen, rec, ?_, hst, hrs, hrf, ?_, hca⟩
    · rw [hrec]
      rfl
    · rw [hcb]
      rfl
  · intro res db2 hsync
    obtain ⟨rec, hrec, -, -, hst, hrs, hrf, -, -, -, hcb, hor⟩ :=
      C5_history_per_cycle.2.2.1 _ "realm1" _ res db2 []
        rfl rfl (Or.inl rfl) hsync
    have hca : rec.cursorAfter = rec.cursorBefore := by
      rcases hor with ⟨-, hca⟩ | ⟨hne, -⟩
      · exact hca
      · exact absurd rfl hne
    refine ⟨rec, ?_, hst, hrs, hrf, ?_, hca⟩
    · rw [hrec]
      rfl
    · rw [hcb]
      rfl
  · intro res db2 hsync
    obtain ⟨rec, hrec, hst, -, -, hcb, hca⟩ :=
      C5_history_per_cycle.2.2.2.2 _ "realm1" _ res db2
        "database is locked" rfl hsync
    refine ⟨rec, ?_, hst, hcb, hca⟩
    rw [hrec]
    rfl
  · intro res db2 hsync
    exact C5_history_per_cycle.2.1 _ "realm1" _ res db2 hsync

/-! ## Claim C9 -/

theorem invoiceDataTable_upsertOne_ne (now : Nat) (t : InvoiceTable)
    (v : InvoiceInput) (i : String) (h : i ≠ v.id) :
    invoiceDataTable (invoiceUpsertOne now t v) i = invoiceDataTable t i := by
  unfold invoiceDataTable invoiceUpsertOne
  simp [h]

theorem invoiceDataTable_upsertOne_self (now : Nat) (t : InvoiceTable)
    (v : InvoiceInput) :
    invoiceDataTable (invoiceUpsertOne now t v) v.id =
      some { realmId := v.realmId, customerId := strOrNull v.customerId,
             rawData := v.rawData } := by
  unfold invoiceDataTable invoiceUpsertOne invoiceData
  cases ht : t v.id <;> simp [ht]

theorem invoiceFoldl_frame (now : Nat) (vs : List InvoiceInput) :
    ∀ (t : InvoiceTable) (i : String), (∀ v ∈ vs, v.id ≠ i) →
      invoiceDataTable (vs.foldl (invoiceUpsertOne now) t) i =
        invoiceDataTable t i := by
  induction vs with
  | nil => intro t i _; rfl
  | cons v vs ih =>
      intro t i h
      have hv : v.id ≠ i := h v (List.mem_cons_self v vs)
      calc invoiceDataTable ((v :: vs).foldl (invoiceUpsertOne now) t) i
          = invoiceDataTable (invoiceUpsertOne now t v) i :=
            ih (invoiceUpsertOne now t v) i
              (fun v2 hv2 => h v2 (List.mem_cons_of_mem v hv2))
        _ = invoiceDataTable t i :=
            invoiceDataTable_upsertOne_ne now t v i (fun he => hv he.symm)

theorem invoiceFoldl_determined (now1 now2 : Nat) (vs : List InvoiceInput) :
    ∀ (t1 t2 : InvoiceTable) (i : String), (∃ v ∈ vs, v.id = i) →
      invoiceDataTable (vs.foldl (invoiceUpsertOne now1) t1) i =
        invoiceDataTable (vs.foldl (invoiceUpsertOne now2) t2) i := by
  induction vs with
  | nil =>
      intro t1 t2 i h
      obtain ⟨v, hv, -⟩ := h
      exact absurd hv (List.not_mem_nil v)
  | cons v vs ih =>
      intro t1 t2 i h
      by_cases h2 : ∃ v2 ∈ vs, v2.id = i
      · exact ih (invoiceUpsertOne now1 t1 v) (invoiceUpsertOne now2 t2 v) i h2
      · have hvid : v.id = i := by
          obtain ⟨v2, hv2, hid⟩ := h
          rcases List.mem_cons.mp hv2 with rfl | hv2
          · exact hid
          · exact absurd ⟨v2, hv2, hid⟩ h2
        have hall : ∀ v2 ∈ vs, v2.id ≠ i :=
          fun v2 hv2 hid => h2 ⟨v2, hv2, hid⟩
        subst hvid
        calc invoiceDataTable
              ((v :: vs).foldl (invoiceUpsertOne now1) t1) v.id
            = invoiceDataTable (invoiceUpsertOne now1 t1 v) v.id :=
              invoiceFoldl_frame now1 vs (invoiceUpsertOne now1 t1 v)
                v.id hall
          _ = some { realmId := v.realmId,
                     customerId := strOrNull v.customerId,
                     rawData := v.rawData } :=
              invoiceDataTable_upsertOne_self now1 t1 v
          _ = invoiceDataTable (invoiceUpsertOne now2 t2 v) v.id :=
              (invoiceDataTable_upsertOne_self now2 t2 v).symm
          _ = invoiceDataTable
                ((v :: vs).foldl (invoiceUpsertOne now2) t2) v.id :=
              (invoiceFoldl_frame now2 vs (invoiceUpsertOne now2 t2 v)
                v.id hall).symm

theorem customerDataTable_upsertOne_ne (now : Nat) (t : CustomerTable)
    (c : CustomerInput) (i : String) (h : i ≠ c.id) :
    customerDataTable (customerUpsertOne now t c) i =
      customerDataTable t i := by
  unfold customerDataTable customerUpsertOne
  simp [h]

theorem customerDataTable_upsertOne_self (now : Nat) (t : CustomerTable)
    (c : CustomerInput) :
    customerDataTable (customerUpsertOne now t c) c.id =
      some { realmId := c.realmId, rawData := c.rawData } := by
  unfold customerDataTable customerUpsertOne customerData
  cases ht : t c.id <;> simp [ht]

theorem customerFoldl_frame (now : Nat) (cs : List CustomerInput) :
    ∀ (t : CustomerTable) (i : String), (∀ c ∈ cs, c.id ≠ i) →
      customerDataTable (cs.foldl (customerUpsertOne now) t) i =
        customerDataTable t i := by
  induction cs with
  | nil => intro t i _; rfl
  | cons c cs ih =>
      intro t i h
      have hc : c.id ≠ i := h c (List.mem_cons_self c cs)
      calc customerDataTable ((c :: cs).foldl (customerUpsertOne now) t) i
          = customerDataTable (customerUpsertOne now t c) i :=
            ih (customerUpsertOne now t c) i
              (fun c2 hc2 => h c2 (List.mem_cons_of_mem c hc2))
        _ = customerDataTable t i :=
            customerDataTable_upsertOne_ne now t c i (fun he => hc he.symm)

theorem customerFoldl_determined (now1 now2 : Nat)
    (cs : List CustomerInput) :
    ∀ (t1 t2 : CustomerTable) (i : String), (∃ c ∈ cs, c.id = i) →
      customerDataTable (cs.foldl (customerUpsertOne now1) t1) i =
        customerDataTable (cs.foldl (customerUpsertOne now2) t2) i := by
  induction cs with
  | nil =>
      intro t1 t2 i h
      obtain ⟨c, hc, -⟩ := h
      exact absurd hc (List.not_mem_nil c)
  | cons c cs ih =>
      intro t1 t2 i h
      by_cases h2 : ∃ c2 ∈ cs, c2.id = i
      · exact ih (customerUpsertOne now1 t1 c) (customerUpsertOne now2 t2 c)
          i h2
      · have hcid : c.id = i := by
          obtain ⟨c2, hc2, hid⟩ := h
          rcases List.mem_cons.mp hc2 with rfl | hc2
          · exact hid
          · exact absurd ⟨c2, hc2, hid⟩ h2
        have hall : ∀ c2 ∈ cs, c2.id ≠ i :=
          fun c2 hc2 hid => h2 ⟨c2, hc2, hid⟩
        subst hcid
        calc customerDataTable
              ((c :: cs).foldl (customerUpsertOne now1) t1) c.id
            = customerDataTable (customerUpsertOne now1 t1 c) c.id :=
              customerFoldl_frame now1 cs (customerUpsertOne now1 t1 c)
                c.id hall
          _ = some { realmId := c.realmId, rawData := c.rawData } :=
              customerDataTable_upsertOne_self now1 t1 c
          _ = customerDataTable (customerUpsertOne now2 t2 c) c.id :=
              (customerDataTable_upsertOne_self now2 t2 c).symm
          _ = customerDataTable
                ((c :: cs).foldl (customerUpsertOne now2) t2) c.id :=
              (customerFoldl_frame now2 cs (customerUpsertOne now2 t2 c)
                c.id hall).symm

/-- C9: applying the same batch twice in succession (at arbitrary write
times) yields the same stored entity table as applying it once — same
keys, and each key's entity fields (realm, customer reference, raw
payload) matching the latest applied batch — for both the invoice and
the customer repository.  Tables are keyed functions, so duplicate rows
per id cannot arise. -/
theorem C9_batchUpsert_idempotent :
    (∀ (now1 now2 : Nat) (t : InvoiceTable) (vs : List InvoiceInput),
      invoiceDataTable
        (invoiceBatchUpsert now2 (invoiceBatchUpsert now1 t vs) vs) =
        invoiceDataTable (invoiceBatchUpsert now1 t vs)) ∧
    (∀ (now1 now2 : Nat) (t : CustomerTable) (cs : List CustomerInput),
      customerDataTable
        (customerBatchUpsert now2 (customerBatchUpsert now1 t cs) cs) =
        customerDataTable (customerBatchUpsert now1 t cs)) := by
  constructor
  · intro now1 now2 t vs
    by_cases hvs : vs = []
    · subst hvs
      rfl
    · unfold invoiceBatchUpsert
      simp only [if_neg hvs]
      funext i
      by_cases hmem : ∃ v ∈ vs, v.id = i
      · exact invoiceFoldl_determined now2 now1 vs
          (vs.foldl (invoiceUpsertOne now1) t) t i hmem
      · exact invoiceFoldl_frame now2 vs
          (vs.foldl (invoiceUpsertOne now1) t) i
          (fun v hv hid => hmem ⟨v, hv, hid⟩)
  · intro now1 now2 t cs
    by_cases hcs : cs = []
    · subst hcs
      rfl
    · unfold customerBatchUpsert
      simp only [if_neg hcs]
      funext i
      by_cases hmem : ∃ c ∈ cs, c.id = i
      · exact customerFoldl_determined now2 now1 cs
          (cs.foldl (customerUpsertOne now1) t) t i hmem
      · exact customerFoldl_frame now2 cs
          (cs.foldl (customerUpsertOne now1) t) i
          (fun c hc hid => hmem ⟨c, hc, hid⟩)

/-! ## Claim C6 -/

/-- C6: token lifecycle of the authenticated client.  With no stored
token the call fails with an authorization-required error and is
independent of the refresher (no remote call attempted); with a stored
token inside the 5-minute expiry buffer the refresher's rotated
access+refresh pair is persisted to the token store and the rotated
access token is returned; with a token outside the buffer no refresh
happens — the stored access token is returned, the store is unchanged,
and the result is again refresher-independent. -/
theorem C6_token_lifecycle :
    (∀ (now : Nat) (store : TokenTable) (realm : String) (f g : Refresher),
      store realm = none →
      (∃ e, getValidToken now f store realm = Except.error e) ∧
      getValidToken now f store realm = getValidToken now g store realm) ∧
    (∀ (now : Nat) (store : TokenTable) (realm : String) (f : Refresher)
        (td : TokenData) (rr : RefreshResponse),
      store realm = some td →
      (now : Int) ≥ (td.expiresAt : Int) - 5 * 60 * 1000 →
      f td.refreshToken = Except.ok rr →
      ∃ store2, getValidToken now f store realm =
          Except.ok (rr.access_token, store2) ∧
        ∃ td2, store2 realm = some td2 ∧
          td2.accessToken = rr.access_token ∧
          td2.refreshToken = rr.refresh_token ∧
          td2.expiresAt = now + rr.expires_in * 1000) ∧
    (∀ (now : Nat) (store : TokenTable) (realm : String) (f g : Refresher)
        (td : TokenData),
      store realm = some td →
      ¬((now : Int) ≥ (td.expiresAt : Int) - 5 * 60 * 1000) →
      getValidToken now f store realm =
        Except.ok (td.accessToken, store) ∧
      getValidToken now f store realm = getValidToken now g store realm) := by
  refine ⟨?_, ?_, ?_⟩
  · intro now store realm f g h
    unfold getValidToken
    simp only [h]
    exact ⟨⟨_, rfl⟩, trivial⟩
  · intro now store realm f td rr h hge hrr
    unfold getValidToken
    simp only [h, hrr]
    rw [if_pos hge]
    refine ⟨_, rfl, ?_⟩
    unfold tokenUpdate
    simp only [if_pos rfl, h]
    exact ⟨_, rfl, rfl, rfl, rfl⟩
  · intro now store realm f g td h hlt
    unfold getValidToken
    simp only [h]
    rw [if_neg hlt]
    exact ⟨rfl, by rw [if_neg hlt]⟩

/-- Witness for C6: all three branches at concrete stores — missing
token, token expiring inside the buffer (rotation persisted), token far
from expiry (no refresh, store untouched). -/
theorem C6_token_lifecycle_witness :
    (∃ e, getValidToken 0 (fun _ => Except.error "nope")
      (fun _ => none) "realm1" = Except.error e) ∧
    (∃ store2,
      getValidToken 0
        (fun _ => Except.ok { access_token := "newA",
                              refresh_token := "newR", expires_in := 3600 })
        (fun _ => some { accessToken := "oldA", refreshToken := "oldR",
                         expiresAt := 1000, createdAt := 0, updatedAt := 0 })
        "realm1" = Except.ok ("newA", store2) ∧
      ∃ td2, store2 "realm1" = some td2 ∧
        td2.accessToken = "newA" ∧ td2.refreshToken = "newR") ∧
    getValidToken 0 (fun _ => Except.error "nope")
      (fun _ => some { accessToken := "A", refreshToken := "R",
                       expiresAt := 1000000000, createdAt := 0,
                       updatedAt := 0 }) "realm1" =
      Except.ok ("A",
        fun _ => some { accessToken := "A", refreshToken := "R",
                        expiresAt := 1000000000, createdAt := 0,
                        updatedAt := 0 }) := by
  refine ⟨?_, ?_, ?_⟩
  · exact (C6_token_lifecycle.1 0 (fun _ => none) "realm1"
      (fun _ => Except.error "nope") (fun _ => Except.error "nope") rfl).1
  · obtain ⟨store2, h1, td2, h2, h3, h4, -⟩ :=
      C6_token_lifecycle.2.1 0
        (fun _ => some { accessToken := "oldA", refreshToken := "oldR",
                         expiresAt := 1000, createdAt := 0, updatedAt := 0 })
        "realm1"
        (fun _ => Except.ok { access_token := "newA",
                              refresh_token := "newR", expires_in := 3600 })
        { accessToken := "oldA", refreshToken := "oldR", expiresAt := 1000,
          createdAt := 0, updatedAt := 0 }
        { access_token := "newA", refresh_token := "newR",
          expires_in := 3600 }
        rfl (by decide) rfl
    exact ⟨store2, h1, td2, h2, h3, h4⟩
  · exact (C6_token_lifecycle.2.2 0
      (fun _ => some { accessToken := "A", refreshToken := "R",
                       expiresAt := 1000000000, createdAt := 0,
                       updatedAt := 0 }) "realm1"
      (fun _ => Except.error "nope") (fun _ => Except.error "nope")
      { accessToken := "A", refreshToken := "R", expiresAt := 1000000000,
        createdAt := 0, updatedAt := 0 }
      rfl (by decide)).1

end QBSync
